import Mathlib

/-!
Shallow embedding of include/linux/caif/caif_socket.h: the CAIF socket
address-family vocabulary (link selectors, channel-priority constants,
protocol types, the AT subtype, the tagged sockaddr union and the socket
option identifiers), together with the pure construction and read-back
operations the address/option contract describes.

The header declares data only; where an operation (construction,
validation, option setting) is needed, it is modelled from the
specification's wording and marked as such in its doc comment.
-/

namespace CaifSocket

/-- Modulus of a __u8 field. -/
def U8_MOD : Nat := 2 ^ 8

/-- Modulus of a __u32 field. -/
def U32_MOD : Nat := 2 ^ 32

/-- enum caif_link_selector: physical link selection between CAIF link
layers (high-bandwidth vs low-latency interface). -/
inductive CaifLinkSelector where
  | CAIF_LINK_HIGH_BANDW
  | CAIF_LINK_LOW_LATENCY
deriving DecidableEq

/-- Numeric value of each caif_link_selector enumerator, following C enum
numbering: the first enumerator is 0, the second 1. -/
def CaifLinkSelector.toNat : CaifLinkSelector → Nat
  | .CAIF_LINK_HIGH_BANDW => 0
  | .CAIF_LINK_LOW_LATENCY => 1

/-- Modelled from the spec: decoding of a CAIFSO_LINK_SELECT option value
(a 4-byte unsigned integer) into a link selector. The source defines only
the two enumerator values; any other integer is outside the enumeration
and decodes to nothing. -/
def CaifLinkSelector.decode : Nat → Option CaifLinkSelector
  | 0 => some .CAIF_LINK_HIGH_BANDW
  | 1 => some .CAIF_LINK_LOW_LATENCY
  | _ => none

/-- enum caif_channel_priority: CAIF_PRIO_MIN = 0x01. -/
def CAIF_PRIO_MIN : Nat := 0x01

/-- enum caif_channel_priority: CAIF_PRIO_LOW = 0x04. -/
def CAIF_PRIO_LOW : Nat := 0x04

/-- enum caif_channel_priority: CAIF_PRIO_NORMAL = 0x0f. -/
def CAIF_PRIO_NORMAL : Nat := 0x0f

/-- enum caif_channel_priority: CAIF_PRIO_HIGH = 0x14. -/
def CAIF_PRIO_HIGH : Nat := 0x14

/-- enum caif_channel_priority: CAIF_PRIO_MAX = 0x1F. -/
def CAIF_PRIO_MAX : Nat := 0x1F

/-- Modelled from the spec: acceptance of a channel-priority value. The
header's comment states that any value between CAIF_PRIO_MIN and
CAIF_PRIO_MAX may be used; the spec's invariant is that the value must lie
in [CAIF_PRIO_MIN, CAIF_PRIO_MAX], with out-of-range values rejected. -/
def acceptPriority (p : Nat) : Bool :=
  decide (CAIF_PRIO_MIN ≤ p ∧ p ≤ CAIF_PRIO_MAX)

/-- enum caif_protocol_type: the CAIF channel (protocol) variants that tag
a socket address. The trailing _CAIFPROTO_MAX enumerator of the C source
is a count sentinel, not an address variant; it is modelled separately as
CAIFPROTO_MAX below. -/
inductive CaifProtocolType where
  | CAIFPROTO_AT
  | CAIFPROTO_DATAGRAM
  | CAIFPROTO_DATAGRAM_LOOP
  | CAIFPROTO_UTIL
  | CAIFPROTO_RFM
deriving DecidableEq

/-- Numeric value of each caif_protocol_type enumerator (C numbering). -/
def CaifProtocolType.toNat : CaifProtocolType → Nat
  | .CAIFPROTO_AT => 0
  | .CAIFPROTO_DATAGRAM => 1
  | .CAIFPROTO_DATAGRAM_LOOP => 2
  | .CAIFPROTO_UTIL => 3
  | .CAIFPROTO_RFM => 4

/-- CAIFPROTO_MAX = _CAIFPROTO_MAX: the count sentinel following the five
protocol enumerators. -/
def CAIFPROTO_MAX : Nat := 5

/-- enum caif_at_type: AT service endpoint subtypes. Only
CAIF_ATTYPE_PLAIN is defined. -/
inductive CaifAtType where
  | CAIF_ATTYPE_PLAIN
deriving DecidableEq

/-- Numeric value of each caif_at_type enumerator: CAIF_ATTYPE_PLAIN = 2. -/
def CaifAtType.toNat : CaifAtType → Nat
  | .CAIF_ATTYPE_PLAIN => 2

/-- The anonymous union nested in sockaddr_caif.u.dgm: a __u32
connection_id aliased with a __u8 nsapi. Per the spec the two
interpretations occupy overlapping storage and are mutually exclusive, so
the union is modelled as a sum type with exactly one active payload. -/
inductive DgmAddr where
  | connection_id (id : Nat)
  | nsapi (n : Nat)
deriving DecidableEq

/-- struct sockaddr_caif: the tagged address union, keyed by the protocol
variant. Per the spec exactly one variant is active per address value; the
DATAGRAM and DATAGRAM_LOOP variants both carry the dgm union arm. -/
inductive SockaddrCaif where
  | atAddr (type : Nat)
  | dgm (d : DgmAddr)
  | dgmLoop (d : DgmAddr)
  | util (service : List Nat)
  | rfm (connection_id : Nat) (volume : List Nat)
deriving DecidableEq

/-- The discriminator of a sockaddr_caif value: which protocol variant the
address is tagged with. -/
def SockaddrCaif.family : SockaddrCaif → CaifProtocolType
  | .atAddr _ => .CAIFPROTO_AT
  | .dgm _ => .CAIFPROTO_DATAGRAM
  | .dgmLoop _ => .CAIFPROTO_DATAGRAM_LOOP
  | .util _ => .CAIFPROTO_UTIL
  | .rfm _ _ => .CAIFPROTO_RFM

/-- Modelled from the spec: construct an AT address from a one-byte
subtype. The subtype is stored in the __u8 u.at.type field; no validation
is performed by this contract (values other than PLAIN are reserved, not
rejected). -/
def mkAtAddr (t : Nat) : SockaddrCaif :=
  .atAddr (t % U8_MOD)

/-- Modelled from the spec: construct a DATAGRAM address with the
connection-id interpretation of the aliased u.dgm storage active. The id
is stored in the __u32 u.dgm.connection_id field. -/
def mkDgmConnectionId (id : Nat) : SockaddrCaif :=
  .dgm (.connection_id (id % U32_MOD))

/-- Modelled from the spec: construct a DATAGRAM address with the NSAPI
interpretation of the aliased u.dgm storage active. The value is stored in
the __u8 u.dgm.nsapi field. -/
def mkDgmNsapi (n : Nat) : SockaddrCaif :=
  .dgm (.nsapi (n % U8_MOD))

/-- Modelled from the spec: construct a DATAGRAM_LOOP address with the
connection-id interpretation active. -/
def mkDgmLoopConnectionId (id : Nat) : SockaddrCaif :=
  .dgmLoop (.connection_id (id % U32_MOD))

/-- Modelled from the spec: construct a DATAGRAM_LOOP address with the
NSAPI interpretation active. -/
def mkDgmLoopNsapi (n : Nat) : SockaddrCaif :=
  .dgmLoop (.nsapi (n % U8_MOD))

/-- Modelled from the spec: construct a UTIL address from a service name.
The u.util.service field is char[16], so a name longer than 16 bytes does
not fit and is rejected with an error (per the spec's recommendation,
rather than silently truncated); each stored element is a byte. -/
def mkUtilAddr (service : List Nat) : Option SockaddrCaif :=
  if service.length ≤ 16 then
    some (.util (service.map (fun b => b % U8_MOD)))
  else
    none

/-- Modelled from the spec: construct an RFM address from a 4-byte
connection id and a volume name of at most 16 bytes (the u.rfm.volume
field is char[16]); an oversized volume name is rejected. -/
def mkRfmAddr (id : Nat) (volume : List Nat) : Option SockaddrCaif :=
  if volume.length ≤ 16 then
    some (.rfm (id % U32_MOD) (volume.map (fun b => b % U8_MOD)))
  else
    none

/-- Modelled from the spec: read back the AT subtype; meaningful only for
the AT variant. -/
def SockaddrCaif.atType : SockaddrCaif → Option Nat
  | .atAddr t => some t
  | _ => none

/-- Modelled from the spec: read back the UTIL service name; meaningful
only for the UTIL variant. -/
def SockaddrCaif.serviceName : SockaddrCaif → Option (List Nat)
  | .util s => some s
  | _ => none

/-- Modelled from the spec: read back the DATAGRAM(_LOOP) connection id.
The mutual-exclusion policy of the aliased u.dgm storage means this yields
nothing when the NSAPI interpretation is the active one. -/
def SockaddrCaif.dgmConnectionId : SockaddrCaif → Option Nat
  | .dgm (.connection_id i) => some i
  | .dgmLoop (.connection_id i) => some i
  | _ => none

/-- Modelled from the spec: read back the DATAGRAM(_LOOP) NSAPI. Yields
nothing when the connection-id interpretation is the active one. -/
def SockaddrCaif.dgmNsapi : SockaddrCaif → Option Nat
  | .dgm (.nsapi n) => some n
  | .dgmLoop (.nsapi n) => some n
  | _ => none

/-- Modelled from the spec: read back the RFM connection id. -/
def SockaddrCaif.rfmConnectionId : SockaddrCaif → Option Nat
  | .rfm i _ => some i
  | _ => none

/-- Modelled from the spec: read back the RFM volume name. -/
def SockaddrCaif.rfmVolume : SockaddrCaif → Option (List Nat)
  | .rfm _ v => some v
  | _ => none

/-- enum caif_socket_opts: the CAIF socket option identifiers. -/
inductive CaifSocketOpts where
  | CAIFSO_LINK_SELECT
  | CAIFSO_REQ_PARAM
  | CAIFSO_RSP_PARAM
deriving DecidableEq

/-- Numeric value of each caif_socket_opts enumerator. -/
def CaifSocketOpts.toNat : CaifSocketOpts → Nat
  | .CAIFSO_LINK_SELECT => 127
  | .CAIFSO_REQ_PARAM => 128
  | .CAIFSO_RSP_PARAM => 129

/-- Modelled from the spec: whether a byte buffer is an acceptable payload
for a given socket option. LINK_SELECT is of type __u32 (4 bytes);
REQ_PARAM and RSP_PARAM are variable-length buffers of at most 256
bytes. -/
def caifOptionPayloadOk : CaifSocketOpts → List Nat → Bool
  | .CAIFSO_LINK_SELECT, buf => decide (buf.length = 4)
  | .CAIFSO_REQ_PARAM, buf => decide (buf.length ≤ 256)
  | .CAIFSO_RSP_PARAM, buf => decide (buf.length ≤ 256)

/-- Modelled from the spec: set the CAIFSO_REQ_PARAM utility-channel
request parameters. A buffer of more than 256 bytes is rejected; an
accepted buffer is stored byte for byte. -/
def setReqParam (buf : List Nat) : Option (List Nat) :=
  if caifOptionPayloadOk .CAIFSO_REQ_PARAM buf then
    some (buf.map (fun b => b % U8_MOD))
  else
    none

/-- A list of byte values (each below U8_MOD) is unchanged by reducing
every element modulo U8_MOD. -/
theorem map_mod_of_bytes (t : List Nat) (ht : ∀ b ∈ t, b < U8_MOD) :
    t.map (fun b => b % U8_MOD) = t := by
  induction t with
  | nil => rfl
  | cons a s ih =>
      have ha : a < U8_MOD := ht a (List.mem_cons_self a s)
      have hs : ∀ b ∈ s, b < U8_MOD := fun b hb => ht b (List.mem_cons_of_mem a hb)
      simp [Nat.mod_eq_of_lt ha, ih hs]

/-- C1: for each of the five protocol variants (AT, DATAGRAM,
DATAGRAM_LOOP, UTIL, RFM), constructing a socket address tagged with that
variant and reading back the discriminator yields the same variant, and
those five are the only variants of the address type. -/
theorem c1_variant_roundtrip :
    (∀ t : Nat, (mkAtAddr t).family = CaifProtocolType.CAIFPROTO_AT) ∧
    (∀ i : Nat, (mkDgmConnectionId i).family = CaifProtocolType.CAIFPROTO_DATAGRAM) ∧
    (∀ n : Nat, (mkDgmNsapi n).family = CaifProtocolType.CAIFPROTO_DATAGRAM) ∧
    (∀ i : Nat, (mkDgmLoopConnectionId i).family = CaifProtocolType.CAIFPROTO_DATAGRAM_LOOP) ∧
    (∀ n : Nat, (mkDgmLoopNsapi n).family = CaifProtocolType.CAIFPROTO_DATAGRAM_LOOP) ∧
    (∀ s : List Nat, s.length ≤ 16 →
      Option.map SockaddrCaif.family (mkUtilAddr s) = some CaifProtocolType.CAIFPROTO_UTIL) ∧
    (∀ (c : Nat) (v : List Nat), v.length ≤ 16 →
      Option.map SockaddrCaif.family (mkRfmAddr c v) = some CaifProtocolType.CAIFPROTO_RFM) ∧
    (∀ a : SockaddrCaif,
      a.family = CaifProtocolType.CAIFPROTO_AT ∨
      a.family = CaifProtocolType.CAIFPROTO_DATAGRAM ∨
      a.family = CaifProtocolType.CAIFPROTO_DATAGRAM_LOOP ∨
      a.family = CaifProtocolType.CAIFPROTO_UTIL ∨
      a.family = CaifProtocolType.CAIFPROTO_RFM) ∧
    (∀ p : CaifProtocolType,
      p = CaifProtocolType.CAIFPROTO_AT ∨
      p = CaifProtocolType.CAIFPROTO_DATAGRAM ∨
      p = CaifProtocolType.CAIFPROTO_DATAGRAM_LOOP ∨
      p = CaifProtocolType.CAIFPROTO_UTIL ∨
      p = CaifProtocolType.CAIFPROTO_RFM) := by
  refine ⟨fun t => rfl, fun i => rfl, fun n => rfl, fun i => rfl, fun n => rfl,
    ?_, ?_, ?_, ?_⟩
  · intro s hs
    simp [mkUtilAddr, hs, SockaddrCaif.family]
  · intro c v hv
    simp [mkRfmAddr, hv, SockaddrCaif.family]
  · intro a
    cases a <;> simp [SockaddrCaif.family]
  · intro p
    cases p <;> simp

/-- Witness for C1 at concrete inputs: a 16-byte UTIL service name and a
12-byte RFM volume name. -/
theorem c1_variant_roundtrip_witness :
    Option.map SockaddrCaif.family (mkUtilAddr (List.replicate 16 0)) =
      some CaifProtocolType.CAIFPROTO_UTIL ∧
    Option.map SockaddrCaif.family (mkRfmAddr 7 (List.replicate 12 0)) =
      some CaifProtocolType.CAIFPROTO_RFM :=
  ⟨c1_variant_roundtrip.2.2.2.2.2.1 (List.replicate 16 0) (by decide),
   c1_variant_roundtrip.2.2.2.2.2.2.1 7 (List.replicate 12 0) (by decide)⟩

/-- C2: in a DATAGRAM (or DATAGRAM_LOOP) address the 4-byte connection id
and the 1-byte NSAPI are mutually exclusive interpretations of the same
storage: exactly one is active per constructed value, and constructing
with one interpretation does not expose the other. -/
theorem c2_dgm_mutual_exclusion :
    (∀ i : Nat, (mkDgmConnectionId i).dgmConnectionId = some (i % U32_MOD) ∧
      (mkDgmConnectionId i).dgmNsapi = none) ∧
    (∀ n : Nat, (mkDgmNsapi n).dgmNsapi = some (n % U8_MOD) ∧
      (mkDgmNsapi n).dgmConnectionId = none) ∧
    (∀ i : Nat, (mkDgmLoopConnectionId i).dgmConnectionId = some (i % U32_MOD) ∧
      (mkDgmLoopConnectionId i).dgmNsapi = none) ∧
    (∀ n : Nat, (mkDgmLoopNsapi n).dgmNsapi = some (n % U8_MOD) ∧
      (mkDgmLoopNsapi n).dgmConnectionId = none) ∧
    (∀ d : DgmAddr,
      ((∃ i, d = DgmAddr.connection_id i) ∨ (∃ n, d = DgmAddr.nsapi n)) ∧
      ¬((∃ i, d = DgmAddr.connection_id i) ∧ (∃ n, d = DgmAddr.nsapi n))) := by
  refine ⟨fun i => ⟨rfl, rfl⟩, fun n => ⟨rfl, rfl⟩, fun i => ⟨rfl, rfl⟩,
    fun n => ⟨rfl, rfl⟩, ?_⟩
  intro d
  cases d with
  | connection_id i =>
      refine ⟨Or.inl ⟨i, rfl⟩, ?_⟩
      rintro ⟨-, ⟨n, hn⟩⟩
      simp at hn
  | nsapi n =>
      refine ⟨Or.inr ⟨n, rfl⟩, ?_⟩
      rintro ⟨⟨i, hi⟩, -⟩
      simp at hi

/-- Witness for C2 at a concrete DATAGRAM connection id. -/
theorem c2_dgm_mutual_exclusion_witness :
    (mkDgmConnectionId 5).dgmConnectionId = some (5 % U32_MOD) ∧
    (mkDgmConnectionId 5).dgmNsapi = none :=
  c2_dgm_mutual_exclusion.1 5

/-- C3: the UTIL service-name field is exactly 16 bytes: a 16-byte name
round-trips unchanged through construction and read-back, and a 17-byte
name is rejected. -/
theorem c3_util_service_name :
    (∀ s : List Nat, s.length = 16 → (∀ b ∈ s, b < U8_MOD) →
      Option.bind (mkUtilAddr s) SockaddrCaif.serviceName = some s) ∧
    (∀ s : List Nat, s.length = 17 → mkUtilAddr s = none) := by
  constructor
  · intro s hlen hb
    have h16 : s.length ≤ 16 := le_of_eq hlen
    simp [mkUtilAddr, h16, SockaddrCaif.serviceName, map_mod_of_bytes s hb]
  · intro s hlen
    simp [mkUtilAddr, hlen]

/-- Witness for C3: a concrete 16-byte name round-trips and a concrete
17-byte name is rejected. -/
theorem c3_util_service_name_witness :
    Option.bind (mkUtilAddr (List.replicate 16 65)) SockaddrCaif.serviceName =
      some (List.replicate 16 65) ∧
    mkUtilAddr (List.replicate 17 65) = none :=
  ⟨c3_util_service_name.1 (List.replicate 16 65) (by decide) (by decide),
   c3_util_service_name.2 (List.replicate 17 65) (by decide)⟩

/-- C4: an RFM address round-trips a 16-byte volume name unchanged, and
round-trips the connection id for every unsigned 32-bit value. -/
theorem c4_rfm_roundtrip :
    ∀ (c : Nat) (v : List Nat), c < U32_MOD → v.length = 16 →
      (∀ b ∈ v, b < U8_MOD) →
      Option.bind (mkRfmAddr c v) SockaddrCaif.rfmConnectionId = some c ∧
      Option.bind (mkRfmAddr c v) SockaddrCaif.rfmVolume = some v := by
  intro c v hc hlen hb
  have h16 : v.length ≤ 16 := le_of_eq hlen
  constructor
  · simp [mkRfmAddr, h16, SockaddrCaif.rfmConnectionId, Nat.mod_eq_of_lt hc]
  · simp [mkRfmAddr, h16, SockaddrCaif.rfmVolume, map_mod_of_bytes v hb]

/-- Witness for C4 at the largest 32-bit connection id and a concrete
16-byte volume name. -/
theorem c4_rfm_roundtrip_witness :
    Option.bind (mkRfmAddr 4294967295 (List.replicate 16 97))
      SockaddrCaif.rfmConnectionId = some 4294967295 ∧
    Option.bind (mkRfmAddr 4294967295 (List.replicate 16 97))
      SockaddrCaif.rfmVolume = some (List.replicate 16 97) :=
  c4_rfm_roundtrip 4294967295 (List.replicate 16 97) (by decide) (by decide)
    (by decide)

/-- C5: the channel-priority constants have the exact values MIN = 1,
LOW = 4, NORMAL = 15, HIGH = 20, MAX = 31, and they are strictly
increasing in that order. -/
theorem c5_priority_constants :
    CAIF_PRIO_MIN = 1 ∧ CAIF_PRIO_LOW = 4 ∧ CAIF_PRIO_NORMAL = 15 ∧
    CAIF_PRIO_HIGH = 20 ∧ CAIF_PRIO_MAX = 31 ∧
    CAIF_PRIO_MIN < CAIF_PRIO_LOW ∧ CAIF_PRIO_LOW < CAIF_PRIO_NORMAL ∧
    CAIF_PRIO_NORMAL < CAIF_PRIO_HIGH ∧ CAIF_PRIO_HIGH < CAIF_PRIO_MAX := by
  decide

/-- C6: a channel-priority value is accepted exactly when it lies in
[CAIF_PRIO_MIN, CAIF_PRIO_MAX] = [1, 31]; in particular 1, 4, 15, 20 and
31 are accepted while 0 and 32 are rejected. -/
theorem c6_priority_acceptance :
    (∀ p : Nat, acceptPriority p = true ↔ (1 ≤ p ∧ p ≤ 31)) ∧
    acceptPriority CAIF_PRIO_MIN = true ∧
    acceptPriority CAIF_PRIO_LOW = true ∧
    acceptPriority CAIF_PRIO_NORMAL = true ∧
    acceptPriority CAIF_PRIO_HIGH = true ∧
    acceptPriority CAIF_PRIO_MAX = true ∧
    acceptPriority 0 = false ∧ acceptPriority 32 = false := by
  refine ⟨?_, by decide, by decide, by decide, by decide, by decide,
    by decide, by decide⟩
  intro p
  simp [acceptPriority, CAIF_PRIO_MIN, CAIF_PRIO_MAX]

/-- C7: the socket option identifiers have the exact values LINK_SELECT =
127, REQ_PARAM = 128, RSP_PARAM = 129, and the three values are pairwise
distinct. -/
theorem c7_socket_opt_values :
    CaifSocketOpts.toNat CaifSocketOpts.CAIFSO_LINK_SELECT = 127 ∧
    CaifSocketOpts.toNat CaifSocketOpts.CAIFSO_REQ_PARAM = 128 ∧
    CaifSocketOpts.toNat CaifSocketOpts.CAIFSO_RSP_PARAM = 129 ∧
    CaifSocketOpts.toNat CaifSocketOpts.CAIFSO_LINK_SELECT ≠
      CaifSocketOpts.toNat CaifSocketOpts.CAIFSO_REQ_PARAM ∧
    CaifSocketOpts.toNat CaifSocketOpts.CAIFSO_LINK_SELECT ≠
      CaifSocketOpts.toNat CaifSocketOpts.CAIFSO_RSP_PARAM ∧
    CaifSocketOpts.toNat CaifSocketOpts.CAIFSO_REQ_PARAM ≠
      CaifSocketOpts.toNat CaifSocketOpts.CAIFSO_RSP_PARAM := by
  decide

/-- C8: setting REQ_PARAM accepts a byte buffer of any length up to 256
inclusive and rejects a buffer of length 257; RSP_PARAM payloads are
likewise acceptable only up to 256 bytes. -/
theorem c8_param_size_limits :
    (∀ buf : List Nat, buf.length ≤ 256 → (setReqParam buf).isSome = true) ∧
    (∀ buf : List Nat, buf.length = 257 → setReqParam buf = none) ∧
    (∀ buf : List Nat,
      caifOptionPayloadOk CaifSocketOpts.CAIFSO_RSP_PARAM buf = true →
        buf.length ≤ 256) := by
  refine ⟨?_, ?_, ?_⟩
  · intro buf h
    simp [setReqParam, caifOptionPayloadOk, h]
  · intro buf h
    simp [setReqParam, caifOptionPayloadOk, h]
  · intro buf h
    simpa [caifOptionPayloadOk] using h

set_option maxRecDepth 4000 in
/-- Witness for C8: a 256-byte buffer is accepted, a 257-byte buffer is
rejected, and a concrete acceptable RSP_PARAM payload is within bounds. -/
theorem c8_param_size_limits_witness :
    (setReqParam (List.replicate 256 0)).isSome = true ∧
    setReqParam (List.replicate 257 0) = none ∧
    (List.replicate 200 0).length ≤ 256 :=
  ⟨c8_param_size_limits.1 (List.replicate 256 0) (by simp),
   c8_param_size_limits.2.1 (List.replicate 257 0) (by simp),
   c8_param_size_limits.2.2 (List.replicate 200 0)
     (by simp [caifOptionPayloadOk])⟩

/-- C9: the only defined AT subtype constant is CAIF_ATTYPE_PLAIN with
value 2; constructing an AT address stores the given one-byte subtype and
reads it back unchanged for every byte value, with no validation. -/
theorem c9_at_subtype :
    (∀ t : CaifAtType, t = CaifAtType.CAIF_ATTYPE_PLAIN) ∧
    CaifAtType.toNat CaifAtType.CAIF_ATTYPE_PLAIN = 2 ∧
    (∀ t : Nat, t < U8_MOD → (mkAtAddr t).atType = some t) := by
  refine ⟨?_, rfl, ?_⟩
  · intro t
    cases t
    rfl
  · intro t ht
    simp [mkAtAddr, SockaddrCaif.atType, Nat.mod_eq_of_lt ht]

/-- Witness for C9: a reserved (non-PLAIN) byte value is stored and read
back unvalidated. -/
theorem c9_at_subtype_witness :
    (mkAtAddr 255).atType = some 255 :=
  c9_at_subtype.2.2 255 (by decide)

/-- C10: the link selector enumeration has exactly the two values
CAIF_LINK_HIGH_BANDW = 0 and CAIF_LINK_LOW_LATENCY = 1; a zero option
value decodes to CAIF_LINK_HIGH_BANDW and every other integer is outside
the enumeration. -/
theorem c10_link_selector :
    CaifLinkSelector.toNat CaifLinkSelector.CAIF_LINK_HIGH_BANDW = 0 ∧
    CaifLinkSelector.toNat CaifLinkSelector.CAIF_LINK_LOW_LATENCY = 1 ∧
    (∀ s : CaifLinkSelector,
      s = CaifLinkSelector.CAIF_LINK_HIGH_BANDW ∨
      s = CaifLinkSelector.CAIF_LINK_LOW_LATENCY) ∧
    CaifLinkSelector.decode 0 = some CaifLinkSelector.CAIF_LINK_HIGH_BANDW ∧
    (∀ n : Nat, n ≠ 0 → n ≠ 1 → CaifLinkSelector.decode n = none) := by
  refine ⟨rfl, rfl, ?_, rfl, ?_⟩
  · intro s
    cases s
    · exact Or.inl rfl
    · exact Or.inr rfl
  · intro n h0 h1
    cases n with
    | zero => exact absurd rfl h0
    | succ m =>
        cases m with
        | zero => exact absurd rfl h1
        | succ k => rfl

/-- Witness for C10: the value 2 is outside the link-selector
enumeration. -/
theorem c10_link_selector_witness :
    CaifLinkSelector.decode 2 = none :=
  c10_link_selector.2.2.2.2 2 (by decide) (by decide)

end CaifSocket
